import Mathlib

/-!
Verification of the room-directory servlet and the federated knock handshake
of the synapse excerpt.

Part I embeds `synapse/rest/client/directory.py`: each servlet method becomes a
Lean function parameterised over its collaborators (`store`, `auth`,
`directory_handler`), which are modelled as `Except`-valued functions.  Python
exceptions become values of the `Err` type; an uncaught exception is an
`Except.error` result.

Part II embeds the knock handshake.  The handler implementation (make_knock /
send_knock / the stripped-state selector) is not part of the excerpt; only its
behavioural test `tests/federation/transport/test_knocking.py` is.  Those
operations are therefore modelled from the specification, with the test file
taken as the authority wherever it pins a concrete behaviour, and the test's
own checker `check_knock_room_state_against_room_state` is embedded verbatim
so the modelled operations can be validated against it.
-/

set_option autoImplicit false

namespace Synapse

/-! ## JSON values and error taxonomy -/

/-- A JSON value as it appears in request/response bodies.  Leaf payloads that
the excerpt never inspects structurally (numbers, nested documents) are carried
as opaque canonical string encodings. -/
inductive JVal where
  | str (s : String)
  | arr (xs : List String)
  | obj (o : List (String × String))
  deriving DecidableEq, Repr

/-- A parsed JSON object (the result of `parse_json_object_from_request`). -/
abbrev JBody := List (String × JVal)

/-- Lookup `content[k]` / `content.get(k)`: first value bound to key `k`. -/
def jget (o : JBody) (k : String) : Option JVal :=
  (o.find? (fun kv => kv.1 = k)).map Prod.snd

/-- Membership test `k in content`. -/
def jhas (o : JBody) (k : String) : Bool :=
  (o.find? (fun kv => kv.1 = k)).isSome

/-- Exceptions raised by the servlets and their collaborators.
`synapseError` covers `SynapseError` and its subclasses that the servlet code
re-raises unhandled (`NotFoundError`, `AuthError`); they are distinguished by
status code and errcode exactly as on the wire.  `invalidClientCredentials`
is `InvalidClientCredentialsError`, the one class `on_DELETE` catches.
`other` stands for any further exception a collaborator may raise. -/
inductive Err where
  | synapseError (code : Nat) (msg : String) (errcode : String)
  | invalidClientCredentials (msg : String)
  | other (tag : String)
  deriving DecidableEq, Repr

/-- Constructor for `SynapseError(code, msg)` with the default errcode `Codes.UNKNOWN`. -/
def SynapseErr (code : Nat) (msg : String) : Err :=
  .synapseError code msg "M_UNKNOWN"

/-- Constructor for `SynapseError(code, msg, errcode=Codes.BAD_JSON)`. -/
def BadJsonErr (code : Nat) (msg : String) : Err :=
  .synapseError code msg "M_BAD_JSON"

/-- Constructor for `NotFoundError(msg)`: a 404 with errcode `M_NOT_FOUND`. -/
def NotFoundErr (msg : String) : Err :=
  .synapseError 404 msg "M_NOT_FOUND"

/-- Constructor for `AuthError(code, msg)`: errcode `M_FORBIDDEN`. -/
def AuthErr (code : Nat) (msg : String) : Err :=
  .synapseError code msg "M_FORBIDDEN"

/-- An HTTP response as the servlets return it: status code and JSON body. -/
abbrev Response := Nat × JBody

/-! ## Collaborator data -/

/-- The row `store.get_room` returns (only `is_public` is read). -/
structure Room where
  is_public : Bool
  deriving DecidableEq, Repr

/-- An application service as `auth.get_appservice_by_req` returns it. -/
structure AppService where
  id : String
  url : String
  deriving DecidableEq, Repr

/-- A `Requester`: the authenticated user plus, when the credentials are an
application service token, that application service. -/
structure Requester where
  user : String
  app_service : Option AppService
  deriving DecidableEq, Repr

/-! ## `ClientDirectoryServer` (`/directory/room/{room_alias}`) -/

namespace ClientDirectoryServer

/-- Embeds `ClientDirectoryServer.on_PUT`.  Collaborators:
`get_room` is `store.get_room`; `get_user_by_req` is
`auth.get_user_by_req(request)`; `create_association` is
`directory_handler.create_association`.  `room_alias` is the (already parsed)
alias from the path and `content` the parsed JSON body. -/
def on_PUT
    (get_room : JVal → Option Room)
    (get_user_by_req : Except Err Requester)
    (create_association :
      Requester → String → JVal → Option JVal → Except Err Unit)
    (room_alias : String) (content : JBody) : Except Err Response := do
  if ¬ jhas content "room_id" then
    throw (BadJsonErr 400 "Missing params: [\"room_id\"]")
  let room_id := (jget content "room_id").getD (.str "")
  let servers := if jhas content "servers" then jget content "servers" else none
  match get_room room_id with
  | none => throw (SynapseErr 400 "Room does not exist")
  | some _ =>
    let requester ← get_user_by_req
    create_association requester room_alias room_id servers
    pure (200, [])

/-- Embeds `ClientDirectoryServer.on_DELETE`.  The `try:` block covers
`auth.get_appservice_by_req`, alias parsing and
`directory_handler.delete_appservice_association`; only
`InvalidClientCredentialsError` is caught, after which the user path runs
(`auth.get_user_by_req` then `directory_handler.delete_association`). -/
def on_DELETE
    (get_appservice_by_req : Except Err AppService)
    (from_string : String → Except Err String)
    (delete_appservice_association : AppService → String → Except Err Unit)
    (get_user_by_req : Except Err Requester)
    (delete_association : Requester → String → Except Err Unit)
    (room_alias : String) : Except Err Response :=
  match (do
      let service ← get_appservice_by_req
      let ralias ← from_string room_alias
      delete_appservice_association service ralias
      pure ((200 : Nat), ([] : JBody))) with
  | .ok resp => .ok resp
  | .error (.invalidClientCredentials _) => do
    -- fallback to default user behaviour if they are not an AS
    let requester ← get_user_by_req
    let ralias ← from_string room_alias
    delete_association requester ralias
    pure (200, [])
  | .error e => .error e

end ClientDirectoryServer

/-! ## `ClientDirectoryListServer` (`/directory/list/room/{room_id}`) -/

namespace ClientDirectoryListServer

/-- Embeds `ClientDirectoryListServer.on_GET`. -/
def on_GET (get_room : JVal → Option Room) (room_id : String) :
    Except Err Response :=
  match get_room (.str room_id) with
  | none => .error (NotFoundErr "Unknown room")
  | some room =>
    .ok (200, [("visibility", .str (if room.is_public then "public" else "private"))])

/-- Embeds `ClientDirectoryListServer.on_PUT`: `visibility` defaults to `"public"`,
then `directory_handler.edit_published_room_list` runs. -/
def on_PUT
    (get_user_by_req : Except Err Requester)
    (edit_published_room_list : Requester → String → JVal → Except Err Unit)
    (room_id : String) (content : JBody) : Except Err Response := do
  let requester ← get_user_by_req
  let visibility := (jget content "visibility").getD (.str "public")
  edit_published_room_list requester room_id visibility
  pure (200, [])

/-- Embeds `ClientDirectoryListServer.on_DELETE`: edit the published room list with
visibility `"private"`. -/
def on_DELETE
    (get_user_by_req : Except Err Requester)
    (edit_published_room_list : Requester → String → JVal → Except Err Unit)
    (room_id : String) : Except Err Response := do
  let requester ← get_user_by_req
  edit_published_room_list requester room_id (.str "private")
  pure (200, [])

end ClientDirectoryListServer

/-! ## `ClientAppserviceDirectoryListServer`
(`/directory/list/appservice/{network_id}/{room_id}`) -/

namespace ClientAppserviceDirectoryListServer

/-- Embeds `ClientAppserviceDirectoryListServer._edit`: authenticate, require the
requester to be an application service, then hand to
`directory_handler.edit_published_appservice_room_list`. -/
def edit
    (get_user_by_req : Except Err Requester)
    (edit_published_appservice_room_list :
      String → String → String → JVal → Except Err Unit)
    (network_id room_id : String) (visibility : JVal) : Except Err Response := do
  let requester ← get_user_by_req
  match requester.app_service with
  | none =>
    throw (AuthErr 403 "Only appservices can edit the appservice published room list")
  | some app_service =>
    edit_published_appservice_room_list app_service.id network_id room_id visibility
    pure (200, [])

/-- Embeds `ClientAppserviceDirectoryListServer.on_PUT`: visibility defaults to
`"public"` when the body omits it. -/
def on_PUT
    (get_user_by_req : Except Err Requester)
    (edit_published_appservice_room_list :
      String → String → String → JVal → Except Err Unit)
    (network_id room_id : String) (content : JBody) : Except Err Response :=
  edit get_user_by_req edit_published_appservice_room_list network_id room_id
    ((jget content "visibility").getD (.str "public"))

/-- Embeds `ClientAppserviceDirectoryListServer.on_DELETE`: visibility forced to
`"private"`. -/
def on_DELETE
    (get_user_by_req : Except Err Requester)
    (edit_published_appservice_room_list :
      String → String → String → JVal → Except Err Unit)
    (network_id room_id : String) : Except Err Response :=
  edit get_user_by_req edit_published_appservice_room_list network_id room_id
    (.str "private")

end ClientAppserviceDirectoryListServer

/-! ## Part II: the federated knock handshake

The make_knock / send_knock handlers and the stripped-state selector are not
in the excerpt; `tests/federation/transport/test_knocking.py` is.  The
operations below are modelled from the specification (sections 4.2 to 4.4),
with every concrete value the test asserts taken from the test. -/

/-! Event-type constants (`synapse.api.constants.EventTypes`). -/

namespace EventTypes

def Member : String := "m.room.member"
def JoinRules : String := "m.room.join_rules"
def Name : String := "m.room.name"
def RoomAvatar : String := "m.room.avatar"
def RoomEncryption : String := "m.room.encryption"
def CanonicalAlias : String := "m.room.canonical_alias"

end EventTypes

/-- The unstable knock membership identifier used while MSC2403 knocking is
not in a stable release of the protocol spec (`KNOCK_UNSTABLE_IDENTIFIER` in
the test file). -/
def KNOCK_UNSTABLE_IDENTIFIER : String := "xyz.amorgan.knock"

/-- The state event type the test expects never to reach a knocking user
(`SECRET_STATE_EVENT_TYPE`). -/
def SECRET_STATE_EVENT_TYPE : String := "com.example.secret"

/-- Event `content`: a JSON object whose values are opaque canonical string
encodings (the excerpt compares contents only for equality, except for the
`membership` key of a membership event). -/
abbrev Content := List (String × String)

/-- A persisted state event.  Beyond the disclosure-eligible fields it carries
`sender`, `room_id` and `extra`, the remaining wire fields (`signatures`,
`hashes`, `unsigned`, `origin`, `depth`, ...) as an opaque object keyed by
field name. -/
structure Event where
  type : String
  state_key : String
  content : Content
  sender : String
  room_id : String
  extra : Content
  deriving DecidableEq, Repr

/-- A field value of a JSON event document sent on the wire. -/
inductive Field where
  | str (s : String)
  | obj (o : Content)
  deriving DecidableEq, Repr

/-- A JSON event document on the wire: field name to value. -/
abbrev EventDict := List (String × Field)

/-- Field lookup in a wire event document. -/
def getField (d : EventDict) (k : String) : Option Field :=
  (d.find? (fun kv => kv.1 = k)).map Prod.snd

/-- Modelled from the spec: the StrippedStateEvent projection (section 3) —
a read-only projection of a persisted state event retaining only `type`,
`state_key` and `content`, excluding `signatures`, `hashes`, `unsigned`,
`origin`, `depth` and all other metadata. -/
def stripEvent (e : Event) : EventDict :=
  [("type", .str e.type), ("state_key", .str e.state_key), ("content", .obj e.content)]

/-- Modelled from the spec: the DisclosurePolicy allow-list (section 3) of
state event types eligible for stripping; the five concrete members are the
ones the test exercises (join rules, canonical alias, avatar, encryption,
name). -/
def knock_allowed_state_types : List String :=
  [EventTypes.JoinRules, EventTypes.CanonicalAlias, EventTypes.RoomAvatar,
   EventTypes.RoomEncryption, EventTypes.Name]

/-- Modelled from the spec: the Stripped State Selector (section 4.4), filter
and projection steps — keep the state events whose type is on the allow-list
and project each to `type`/`state_key`/`content`.  Per the test (its comment
at the send_knock response: the knock membership event is *not* sent over
federation as part of the stripped room state, being only added for clients
during /sync), the federation `send_knock` response consists of exactly this
selection, with no membership event appended. -/
def select_knock_state_events (state : List Event) : List EventDict :=
  (state.filter (fun e => knock_allowed_state_types.contains e.type)).map stripEvent

/-- Modelled from the spec: the client-facing stripped-state sequence
(section 4.4 step 3): the federation selection with the knocking user's own
membership event appended last. -/
def stripped_state_for_client (state : List Event) (knock_event : Event) :
    List EventDict :=
  select_knock_state_events state ++ [stripEvent knock_event]

/-- Modelled from the spec: the Knock Template Builder (section 4.2) —
an unsigned membership-event template with type = membership, state_key =
sender = the knocking user, the requested room, and membership content equal
to the knock identifier.  The membership value is the unstable identifier, as
pinned by the test (`knock_event["content"]["membership"] ==
KNOCK_UNSTABLE_IDENTIFIER`). -/
def make_knock_template (room_id user_id : String) : Event :=
  { type := EventTypes.Member
    state_key := user_id
    content := [("membership", KNOCK_UNSTABLE_IDENTIFIER)]
    sender := user_id
    room_id := room_id
    extra := [] }

/-- A federation send_knock response: status code and the
`knock_state_events` sequence. -/
abbrev Response2 := Nat × List EventDict

/-- The domain part of a user identifier (`@local:domain`): everything after
the first colon. -/
def domainOf (user_id : String) : String :=
  ⟨(user_id.data.dropWhile (fun c => ¬ c = ':')).drop 1⟩

/-- Modelled from the spec: the Knock Acceptor (section 4.3) — verify
signatures (collaborator `check_sigs`), check the event's fields against the
request, run the event-graph auth check (collaborator `auth_check`) and
persist, then return the stripped room state.  Verification failure is
Forbidden, field mismatch is BadRequest, auth rejection is Forbidden. -/
def send_knock
    (check_sigs : Event → Bool)
    (auth_check : Event → Bool)
    (origin : String)
    (room_id : String)
    (room_state : List Event)
    (ev : Event) : Except Err Response2 :=
  if ¬ check_sigs ev then
    .error (AuthErr 403 "signature verification failed")
  else if ¬ (ev.room_id = room_id ∧ domainOf ev.sender = origin
      ∧ ev.type = EventTypes.Member
      ∧ (ev.content.find? (fun kv => kv.1 = "membership")).map Prod.snd
          = some KNOCK_UNSTABLE_IDENTIFIER) then
    .error (SynapseErr 400 "knock event does not match request")
  else if ¬ auth_check ev then
    .error (AuthErr 403 "knock not authorized")
  else
    .ok (200, select_knock_state_events room_state)

/-! ## The behavioural test of `tests/federation/transport/test_knocking.py` -/

/-- One entry of the `expected_room_state` OrderedDict built by
`send_example_state_events_to_room`: an event type mapped to the content and
state key a knocking user is expected to see. -/
structure ExpectedEntry where
  type : String
  content : Content
  state_key : String
  deriving DecidableEq, Repr

/-- Embeds the test helper `check_knock_room_state_against_room_state`: walk
the received stripped events; each must name a still-expected type, carry that
entry's content and state key, and carry no `signatures` field; the matched
entry is popped; at the end every expected entry must have been consumed.
(The final Python assertion `assertNotIn(SECRET_STATE_EVENT_TYPE,
knock_room_state)` compares a string against a list of dicts and so never
fires; the `assertIn` on each received type already rules the secret type
out.) -/
def check_knock_room_state_against_room_state :
    List EventDict → List ExpectedEntry → Bool
  | [], expected => expected.isEmpty
  | ev :: rest, expected =>
    match getField ev "type" with
    | some (.str t) =>
      match expected.find? (fun x => x.type = t) with
      | some entry =>
        decide (getField ev "content" = some (.obj entry.content)) &&
        decide (getField ev "state_key" = some (.str entry.state_key)) &&
        (getField ev "signatures").isNone &&
        check_knock_room_state_against_room_state rest
          (expected.filter (fun x => ¬ x.type = t))
      | none => false
    | _ => false

/-- The room the test creates. -/
def example_room_id : String := "!room:test"

/-- The local room creator (`u1`). -/
def example_sender : String := "@u1:test"

/-- The remote knocking user (`fake_knocking_user_id`). -/
def example_knocking_user : String := "@user:other.example.com"

/-- The alias pointed at the room so a canonical alias can be set. -/
def example_canonical_alias : String := "#fancy_alias:test"

/-- Placeholder signature metadata carried by persisted events, to witness
that stripping removes it. -/
def example_sigs : Content := [("ed25519:key1", "sigbase64")]

/-- The join-rules state event injected by the test (join rule set to the
unstable knock identifier). -/
def example_join_rules_event : Event :=
  { type := EventTypes.JoinRules, state_key := ""
    content := [("join_rule", KNOCK_UNSTABLE_IDENTIFIER)]
    sender := example_sender, room_id := example_room_id
    extra := example_sigs }

/-- The room-name state event injected by the test. -/
def example_name_event : Event :=
  { type := EventTypes.Name, state_key := ""
    content := [("name", "A cool room")]
    sender := example_sender, room_id := example_room_id
    extra := example_sigs }

/-- The avatar state event injected by the test (the nested `info` document
is carried as an opaque canonical encoding). -/
def example_avatar_event : Event :=
  { type := EventTypes.RoomAvatar, state_key := ""
    content := [("info", "h=398;mimetype=image/jpeg;size=31037;w=394"),
                ("url", "mxc://example.org/JWEIFJgwEIhweiWJE")]
    sender := example_sender, room_id := example_room_id
    extra := example_sigs }

/-- The encryption state event injected by the test. -/
def example_encryption_event : Event :=
  { type := EventTypes.RoomEncryption, state_key := ""
    content := [("algorithm", "m.megolm.v1.aes-sha2")]
    sender := example_sender, room_id := example_room_id
    extra := example_sigs }

/-- The canonical-alias state event injected by the test. -/
def example_canonical_alias_event : Event :=
  { type := EventTypes.CanonicalAlias, state_key := ""
    content := [("alias", example_canonical_alias), ("alt_aliases", "[]")]
    sender := example_sender, room_id := example_room_id
    extra := example_sigs }

/-- The secret state event injected by the test: a custom type that must
never be disclosed to a knocking user. -/
def example_secret_event : Event :=
  { type := SECRET_STATE_EVENT_TYPE, state_key := ""
    content := [("secret", "password")]
    sender := example_sender, room_id := example_room_id
    extra := example_sigs }

/-- The room creator's own membership event (from room creation). -/
def example_creator_member_event : Event :=
  { type := EventTypes.Member, state_key := example_sender
    content := [("membership", "join")]
    sender := example_sender, room_id := example_room_id
    extra := example_sigs }

/-- The create event of the room (from room creation). -/
def example_create_event : Event :=
  { type := "m.room.create", state_key := ""
    content := [("creator", example_sender),
                ("room_version", KNOCK_UNSTABLE_IDENTIFIER)]
    sender := example_sender, room_id := example_room_id
    extra := example_sigs }

/-- The power-levels event of the room (from room creation). -/
def example_power_levels_event : Event :=
  { type := "m.room.power_levels", state_key := ""
    content := [("users", example_sender ++ "=100")]
    sender := example_sender, room_id := example_room_id
    extra := example_sigs }

/-- The current state mapping of the test room once
`send_example_state_events_to_room` has run: room-creation state, the secret
event, and the five discovery state events (the injected join-rules event
has replaced the creation-time one). -/
def example_room_state : List Event :=
  [example_create_event, example_creator_member_event,
   example_power_levels_event, example_secret_event,
   example_join_rules_event, example_name_event, example_avatar_event,
   example_encryption_event, example_canonical_alias_event]

/-- The `expected_room_state` OrderedDict returned by
`send_example_state_events_to_room`: join rules, name, avatar, encryption,
canonical alias. -/
def expected_room_state_test : List ExpectedEntry :=
  [⟨EventTypes.JoinRules, [("join_rule", KNOCK_UNSTABLE_IDENTIFIER)], ""⟩,
   ⟨EventTypes.Name, [("name", "A cool room")], ""⟩,
   ⟨EventTypes.RoomAvatar,
     [("info", "h=398;mimetype=image/jpeg;size=31037;w=394"),
      ("url", "mxc://example.org/JWEIFJgwEIhweiWJE")], ""⟩,
   ⟨EventTypes.RoomEncryption, [("algorithm", "m.megolm.v1.aes-sha2")], ""⟩,
   ⟨EventTypes.CanonicalAlias,
     [("alias", example_canonical_alias), ("alt_aliases", "[]")], ""⟩]

/-- Apply the remote signing step to a template: the fields stay untouched
and signature metadata is attached. -/
def sign_event (e : Event) (sigs : Content) : Event :=
  { e with extra := sigs }

/-- The signed knock event the test submits: the make_knock template for the
test room and remote user, signed by the remote homeserver. -/
def example_signed_knock_event : Event :=
  sign_event (make_knock_template example_room_id example_knocking_user)
    example_sigs

/-! ## Specification views of `on_DELETE` and the modelled collaborators -/

/-- The application-service branch of `ClientDirectoryServer.on_DELETE`
(the body of its `try:` block). -/
def appservice_delete_path
    (get_appservice_by_req : Except Err AppService)
    (from_string : String → Except Err String)
    (delete_appservice_association : AppService → String → Except Err Unit)
    (room_alias : String) : Except Err Response := do
  let service ← get_appservice_by_req
  let ralias ← from_string room_alias
  delete_appservice_association service ralias
  pure (200, [])

/-- The user fallback branch of `ClientDirectoryServer.on_DELETE`. -/
def user_delete_path
    (get_user_by_req : Except Err Requester)
    (from_string : String → Except Err String)
    (delete_association : Requester → String → Except Err Unit)
    (room_alias : String) : Except Err Response := do
  let requester ← get_user_by_req
  let ralias ← from_string room_alias
  delete_association requester ralias
  pure (200, [])

/-- The published appservice room list: (appservice id, network id, room id)
mapped to the stored visibility. -/
structure AppserviceRoomList where
  entries : List ((String × String × String) × JVal)
  deriving DecidableEq, Repr

/-- Store or replace one entry of the published appservice room list. -/
def AppserviceRoomList.set (l : AppserviceRoomList)
    (k : String × String × String) (v : JVal) : AppserviceRoomList :=
  ⟨(k, v) :: l.entries.filter (fun kv => ¬ kv.1 = k)⟩

/-- Modelled from the spec: the directory handler operation
`edit_published_appservice_room_list` (setVisibility in an appservice-network
scope, section 4.1), whose implementation is not in the excerpt.  It requires
the actor to literally be the application-service identity that owns the
network; otherwise it fails with Forbidden (403) and yields no new state. -/
def edit_published_appservice_room_list
    (owner_of_network : String → Option String)
    (st : AppserviceRoomList)
    (appservice_id network_id room_id : String) (visibility : JVal) :
    Except Err AppserviceRoomList :=
  if owner_of_network network_id = some appservice_id then
    .ok (st.set (appservice_id, network_id, room_id) visibility)
  else
    .error (AuthErr 403 "This application service does not own this network")

/-- The published appservice room list after a
`ClientAppserviceDirectoryListServer` edit runs against the modelled handler:
unchanged unless authentication produced an application service that owns the
network. -/
def appservice_edit_final_state
    (owner_of_network : String → Option String)
    (get_user_by_req : Except Err Requester)
    (st : AppserviceRoomList)
    (network_id room_id : String) (visibility : JVal) : AppserviceRoomList :=
  match get_user_by_req with
  | .error _ => st
  | .ok requester =>
    match requester.app_service with
    | none => st
    | some app_service =>
      match edit_published_appservice_room_list owner_of_network st
          app_service.id network_id room_id visibility with
      | .ok st2 => st2
      | .error _ => st

/-- The servlet collaborator induced by the modelled directory handler at a
fixed starting state. -/
def modelled_appservice_handler
    (owner_of_network : String → Option String) (st : AppserviceRoomList) :
    String → String → String → JVal → Except Err Unit :=
  fun a n r v =>
    (edit_published_appservice_room_list owner_of_network st a n r v).map
      (fun _ => ())

/-- Modelled from the spec: the GET make_knock endpoint (sections 4.2 and 6),
whose implementation is not in the excerpt — 404 when the room is unknown,
403 when the room version does not support knocking, otherwise 200 with the
unsigned template and the room version. -/
def make_knock
    (room_version_of : String → Option String)
    (version_supports_knock : String → Bool)
    (room_id user_id : String) : Except Err (Nat × Event × String) :=
  match room_version_of room_id with
  | none => .error (NotFoundErr "Unknown room")
  | some v =>
    if ¬ version_supports_knock v then
      .error (AuthErr 403 "This room version does not support knocking")
    else
      .ok (200, make_knock_template room_id user_id, v)

/-! ## Helper lemmas -/

lemma jhas_of_jget {o : JBody} {k : String} {v : JVal} (h : jget o k = some v) :
    jhas o k = true := by
  unfold jget jhas at *
  cases hf : o.find? (fun kv => kv.1 = k) with
  | none => rw [hf] at h; simp at h
  | some kv => simp

lemma on_DELETE_eq
    (gas : Except Err AppService) (fs : String → Except Err String)
    (daa : AppService → String → Except Err Unit)
    (gur : Except Err Requester) (da : Requester → String → Except Err Unit)
    (ra : String) :
    ClientDirectoryServer.on_DELETE gas fs daa gur da ra
      = match appservice_delete_path gas fs daa ra with
        | .ok resp => .ok resp
        | .error (.invalidClientCredentials _) => user_delete_path gur fs da ra
        | .error e => .error e := rfl

lemma stripEvent_eq_key {x e : Event} (h : stripEvent x = stripEvent e) :
    x.type = e.type ∧ x.state_key = e.state_key := by
  simp [stripEvent] at h
  exact ⟨h.1, h.2.1⟩

lemma count_strip_eq_one (p : Event → Bool) (state : List Event) :
    ∀ e : Event, p e = true →
      (state.map (fun x => (x.type, x.state_key))).Nodup →
      e ∈ state →
      ((state.filter p).map stripEvent).count (stripEvent e) = 1 := by
  induction state with
  | nil => intro e _ _ hmem; simp at hmem
  | cons a l ih =>
    intro e hp hnd hmem
    rw [List.map_cons, List.nodup_cons] at hnd
    obtain ⟨ha, hnd2⟩ := hnd
    rcases List.mem_cons.mp hmem with he | he
    · subst he
      rw [List.filter_cons_of_pos hp, List.map_cons, List.count_cons_self]
      have hz : (List.map stripEvent (l.filter p)).count (stripEvent e) = 0 := by
        rw [List.count_eq_zero]
        intro hmem2
        obtain ⟨x, hxmem, hxeq⟩ := List.mem_map.mp hmem2
        obtain ⟨ht, hsk⟩ := stripEvent_eq_key hxeq
        exact ha (List.mem_map.mpr
          ⟨x, List.mem_of_mem_filter hxmem, by rw [ht, hsk]⟩)
      rw [hz]
    · have hkey : ¬ stripEvent a = stripEvent e := by
        intro hk
        obtain ⟨ht, hsk⟩ := stripEvent_eq_key hk
        exact ha (List.mem_map.mpr ⟨e, he, by rw [ht, hsk]⟩)
      by_cases hpa : p a = true
      · rw [List.filter_cons_of_pos hpa, List.map_cons,
          List.count_cons_of_ne (fun hne => hkey hne.symm)]
        exact ih e hp hnd2 he
      · rw [List.filter_cons_of_neg (by simpa using hpa)]
        exact ih e hp hnd2 he

/-! ## The claims -/

/-- C1: for every room whose current state is a well-formed mapping (no two
state events share a (type, state_key) pair), the stripped-state sequence of
the send_knock response contains, for each state event whose type is on the
disclosure allow-list, exactly one entry with that event's type, state key
and content, and contains no entry whose state type is off the allow-list
(such as `com.example.secret`), even if that event was the most recently
changed state. -/
theorem c1_stripped_state_completeness_exclusivity (state : List Event)
    (hmap : (state.map (fun x => (x.type, x.state_key))).Nodup) :
    (∀ e ∈ state, e.type ∈ knock_allowed_state_types →
      (select_knock_state_events state).count (stripEvent e) = 1)
    ∧ (∀ d ∈ select_knock_state_events state, ∀ t,
        getField d "type" = some (.str t) → t ∈ knock_allowed_state_types) := by
  constructor
  · intro e he ht
    have hp : knock_allowed_state_types.contains e.type = true := by simpa using ht
    exact count_strip_eq_one _ state e hp hmap he
  · intro d hd t hft
    obtain ⟨x, hx, rfl⟩ := List.mem_map.mp hd
    have hx2 : knock_allowed_state_types.contains x.type = true :=
      (List.mem_filter.mp hx).2
    have hg : getField (stripEvent x) "type" = some (.str x.type) := rfl
    rw [hg] at hft
    have : x.type = t := by
      injection hft with h1
      injection h1
    rw [← this]
    simpa using hx2

/-- Witness for C1 at the test room: the join-rules state event yields
exactly one stripped entry and join rules is an allow-listed type. -/
theorem c1_witness_test_room :
    (select_knock_state_events example_room_state).count
      (stripEvent example_join_rules_event) = 1
    ∧ EventTypes.JoinRules ∈ knock_allowed_state_types :=
  ⟨(c1_stripped_state_completeness_exclusivity example_room_state
      (by decide)).1 example_join_rules_event (by decide) (by decide),
   (c1_stripped_state_completeness_exclusivity example_room_state
      (by decide)).2 (stripEvent example_join_rules_event) (by decide)
      EventTypes.JoinRules rfl⟩

/-- C2, counterexample: in the concrete scenario of
`test_room_state_returned_when_knocking`, the send_knock response is accepted
by the test checker yet contains no entry whose type is the membership event
type at all — in particular the knocking user's membership event is neither
present nor the last element, contradicting the claim. -/
theorem c2_counterexample_no_membership_over_federation :
    send_knock (fun _ => true) (fun _ => true) "other.example.com"
        example_room_id example_room_state example_signed_knock_event
      = .ok (200, select_knock_state_events example_room_state)
    ∧ check_knock_room_state_against_room_state
        (select_knock_state_events example_room_state)
        expected_room_state_test = true
    ∧ (select_knock_state_events example_room_state).all
        (fun d => !(getField d "type" == some (.str EventTypes.Member)))
      = true :=
  ⟨rfl, by decide, by decide⟩

/-- C2 as amended: the knocking user's membership event is never part of the
`knock_state_events` sequence returned by send_knock over federation (the
knocking homeserver already holds that event); the membership event is
appended last only in the client-facing stripped state sent during /sync. -/
theorem c2_amended_membership_not_in_federation_response
    (state : List Event) (knock_event : Event) :
    (∀ d ∈ select_knock_state_events state,
      ¬ getField d "type" = some (Field.str EventTypes.Member))
    ∧ (stripped_state_for_client state knock_event).getLast?
        = some (stripEvent knock_event) := by
  constructor
  · intro d hd hmem
    obtain ⟨x, hx, rfl⟩ := List.mem_map.mp hd
    have hx2 : knock_allowed_state_types.contains x.type = true :=
      (List.mem_filter.mp hx).2
    have hg : getField (stripEvent x) "type" = some (.str x.type) := rfl
    rw [hg] at hmem
    have : x.type = EventTypes.Member := by
      injection hmem with h1
      injection h1
    rw [this] at hx2
    exact absurd hx2 (by decide)
  · simp [stripped_state_for_client]

/-- Witness for the amended C2 at the test room. -/
theorem c2_witness_test_room :
    (¬ getField (stripEvent example_join_rules_event) "type"
      = some (Field.str EventTypes.Member))
    ∧ (stripped_state_for_client example_room_state
        example_signed_knock_event).getLast?
      = some (stripEvent example_signed_knock_event) :=
  ⟨(c2_amended_membership_not_in_federation_response example_room_state
      example_signed_knock_event).1 (stripEvent example_join_rules_event)
      (by decide),
   (c2_amended_membership_not_in_federation_response example_room_state
      example_signed_knock_event).2⟩

/-- C3, counterexample: the knock template built for the test room and remote
user carries `content.membership = "xyz.amorgan.knock"` (the unstable knock
identifier), not `"knock"` as the claim states. -/
theorem c3_counterexample_membership_value :
    (make_knock_template example_room_id example_knocking_user).content
      = [("membership", "xyz.amorgan.knock")]
    ∧ ¬ (make_knock_template example_room_id example_knocking_user).content
      = [("membership", "knock")] := by decide

/-- C3 as amended: for every room whose version supports knocking, make_knock
returns 200 with a template whose room_id is the requested room, whose sender
and state_key are the requested user, whose type is the membership event type
and whose `content.membership` is the unstable knock identifier
`"xyz.amorgan.knock"`; signing that template and submitting it via send_knock
returns 200. -/
theorem c3_amended_knock_roundtrip
    (room_version_of : String → Option String)
    (version_supports_knock : String → Bool)
    (check_sigs auth_check : Event → Bool)
    (room_id user_id v : String) (sigs : Content) (room_state : List Event)
    (hv : room_version_of room_id = some v)
    (hsupp : version_supports_knock v = true)
    (hsig : check_sigs (sign_event (make_knock_template room_id user_id) sigs)
      = true)
    (hauth : auth_check (sign_event (make_knock_template room_id user_id) sigs)
      = true) :
    make_knock room_version_of version_supports_knock room_id user_id
      = .ok (200, make_knock_template room_id user_id, v)
    ∧ (make_knock_template room_id user_id).room_id = room_id
    ∧ (make_knock_template room_id user_id).sender = user_id
    ∧ (make_knock_template room_id user_id).state_key = user_id
    ∧ (make_knock_template room_id user_id).type = EventTypes.Member
    ∧ ((make_knock_template room_id user_id).content.find?
        (fun kv => kv.1 = "membership")).map Prod.snd
        = some KNOCK_UNSTABLE_IDENTIFIER
    ∧ send_knock check_sigs auth_check (domainOf user_id) room_id room_state
        (sign_event (make_knock_template room_id user_id) sigs)
      = .ok (200, select_knock_state_events room_state) := by
  refine ⟨?_, rfl, rfl, rfl, rfl, rfl, ?_⟩
  · simp [make_knock, hv, hsupp]
  · simp only [sign_event, make_knock_template] at hsig hauth
    simp [send_knock, hsig, hauth, sign_event, make_knock_template]

/-- Witness for the amended C3: the full round trip at the test room and
remote user, with collaborators that accept. -/
theorem c3_witness_concrete_roundtrip :
    make_knock (fun _ => some KNOCK_UNSTABLE_IDENTIFIER) (fun _ => true)
        example_room_id example_knocking_user
      = .ok (200, make_knock_template example_room_id example_knocking_user,
          KNOCK_UNSTABLE_IDENTIFIER)
    ∧ (make_knock_template example_room_id example_knocking_user).room_id
      = example_room_id
    ∧ (make_knock_template example_room_id example_knocking_user).sender
      = example_knocking_user
    ∧ (make_knock_template example_room_id example_knocking_user).state_key
      = example_knocking_user
    ∧ (make_knock_template example_room_id example_knocking_user).type
      = EventTypes.Member
    ∧ ((make_knock_template example_room_id example_knocking_user).content.find?
        (fun kv => kv.1 = "membership")).map Prod.snd
        = some KNOCK_UNSTABLE_IDENTIFIER
    ∧ send_knock (fun _ => true) (fun _ => true)
        (domainOf example_knocking_user) example_room_id example_room_state
        (sign_event (make_knock_template example_room_id example_knocking_user)
          example_sigs)
      = .ok (200, select_knock_state_events example_room_state) :=
  c3_amended_knock_roundtrip (fun _ => some KNOCK_UNSTABLE_IDENTIFIER)
    (fun _ => true) (fun _ => true) (fun _ => true)
    example_room_id example_knocking_user KNOCK_UNSTABLE_IDENTIFIER
    example_sigs example_room_state rfl rfl rfl rfl

/-- C4: every element of the `knock_state_events` sequence of a successful
send_knock response carries exactly the fields `type`, `state_key` and
`content`; in particular no element carries a `signatures` field. -/
theorem c4_stripped_fields_only
    (check_sigs auth_check : Event → Bool) (origin room_id : String)
    (room_state : List Event) (ev : Event) (code : Nat) (resp : List EventDict)
    (h : send_knock check_sigs auth_check origin room_id room_state ev
      = .ok (code, resp)) :
    ∀ d ∈ resp, d.map Prod.fst = ["type", "state_key", "content"]
      ∧ getField d "signatures" = none := by
  unfold send_knock at h
  split at h
  · exact absurd h (by simp)
  · split at h
    · exact absurd h (by simp)
    · split at h
      · exact absurd h (by simp)
      · injection h with h1
        injection h1 with hc hr
        subst hr
        intro d hd
        obtain ⟨x, hx, rfl⟩ := List.mem_map.mp hd
        exact ⟨rfl, rfl⟩

/-- Witness for C4 at the test room: the stripped join-rules entry of the
accepted knock carries only the three projected fields and no signatures. -/
theorem c4_witness_test_room :
    (stripEvent example_join_rules_event).map Prod.fst
      = ["type", "state_key", "content"]
    ∧ getField (stripEvent example_join_rules_event) "signatures" = none :=
  c4_stripped_fields_only (fun _ => true) (fun _ => true) "other.example.com"
    example_room_id example_room_state example_signed_knock_event
    200 (select_knock_state_events example_room_state) rfl
    (stripEvent example_join_rules_event) (by decide)

/-- C5: DELETE /directory/room/{alias} first attempts the
application-service-scoped deletion; exactly when that path raises
`InvalidClientCredentialsError` (the requester's credentials are not those of
an application service) it falls back to the user-scoped path; any other
failure of the appservice path, and any failure of the user path, propagates
to the caller. -/
theorem c5_delete_alias_fallback
    (gas : Except Err AppService) (fs : String → Except Err String)
    (daa : AppService → String → Except Err Unit)
    (gur : Except Err Requester) (da : Requester → String → Except Err Unit)
    (ra : String) :
    (∀ r, appservice_delete_path gas fs daa ra = .ok r →
      ClientDirectoryServer.on_DELETE gas fs daa gur da ra = .ok r)
    ∧ (∀ m, appservice_delete_path gas fs daa ra
          = .error (.invalidClientCredentials m) →
      ClientDirectoryServer.on_DELETE gas fs daa gur da ra
        = user_delete_path gur fs da ra)
    ∧ (∀ e, appservice_delete_path gas fs daa ra = .error e →
      (∀ m, ¬ e = Err.invalidClientCredentials m) →
      ClientDirectoryServer.on_DELETE gas fs daa gur da ra = .error e)
    ∧ (∀ m e, appservice_delete_path gas fs daa ra
          = .error (.invalidClientCredentials m) →
      user_delete_path gur fs da ra = .error e →
      ClientDirectoryServer.on_DELETE gas fs daa gur da ra = .error e) := by
  refine ⟨?_, ?_, ?_, ?_⟩
  · intro r h; rw [on_DELETE_eq, h]
  · intro m h; rw [on_DELETE_eq, h]
  · intro e h hne; rw [on_DELETE_eq, h]
    cases e with
    | invalidClientCredentials m => exact absurd rfl (hne m)
    | synapseError c msg ec => rfl
    | other t => rfl
  · intro m e h hu; rw [on_DELETE_eq, h, hu]

/-- Witness for C5: with non-appservice credentials the handler falls back to
the user path, while a distinct appservice-path failure propagates as is. -/
theorem c5_witness_concrete :
    ClientDirectoryServer.on_DELETE
        (.error (.invalidClientCredentials "Unrecognized access token"))
        (fun s => .ok s) (fun _ _ => .ok ())
        (.ok ⟨"@u1:test", none⟩) (fun _ _ => .ok ()) "#a:test"
      = user_delete_path (.ok ⟨"@u1:test", none⟩) (fun s => .ok s)
          (fun _ _ => .ok ()) "#a:test"
    ∧ ClientDirectoryServer.on_DELETE (.error (.other "database down"))
        (fun s => .ok s) (fun _ _ => .ok ())
        (.ok ⟨"@u1:test", none⟩) (fun _ _ => .ok ()) "#a:test"
      = .error (.other "database down") :=
  ⟨(c5_delete_alias_fallback
      (.error (.invalidClientCredentials "Unrecognized access token"))
      (fun s => .ok s) (fun _ _ => .ok ())
      (.ok ⟨"@u1:test", none⟩) (fun _ _ => .ok ()) "#a:test").2.1
      "Unrecognized access token" rfl,
   (c5_delete_alias_fallback (.error (.other "database down"))
      (fun s => .ok s) (fun _ _ => .ok ())
      (.ok ⟨"@u1:test", none⟩) (fun _ _ => .ok ()) "#a:test").2.2.1
      (.other "database down") rfl (fun _ h => Err.noConfusion h)⟩

/-- C6: PUT /directory/room/{alias} fails with 400 (`M_BAD_JSON`) when the
body lacks `room_id`, fails with 400 "Room does not exist" when the named
room is absent from the store, and only when both checks pass proceeds to
authentication and `create_association`, answering 200 with an empty body on
success. -/
theorem c6_put_alias_validation
    (get_room : JVal → Option Room)
    (gur : Except Err Requester)
    (ca : Requester → String → JVal → Option JVal → Except Err Unit)
    (room_alias : String) (content : JBody) :
    (jhas content "room_id" = false →
      ClientDirectoryServer.on_PUT get_room gur ca room_alias content
        = .error (BadJsonErr 400 "Missing params: [\"room_id\"]"))
    ∧ (∀ rid, jget content "room_id" = some rid → get_room rid = none →
      ClientDirectoryServer.on_PUT get_room gur ca room_alias content
        = .error (SynapseErr 400 "Room does not exist"))
    ∧ (∀ rid room, jget content "room_id" = some rid → get_room rid = some room →
      ClientDirectoryServer.on_PUT get_room gur ca room_alias content
        = (do
            let requester ← gur
            ca requester room_alias rid
              (if jhas content "servers" then jget content "servers" else none)
            pure (200, []))) := by
  refine ⟨?_, ?_, ?_⟩
  · intro h
    simp [ClientDirectoryServer.on_PUT, h]; rfl
  · intro rid hrid hroom
    have hj := jhas_of_jget hrid
    simp [ClientDirectoryServer.on_PUT, hj, hrid, hroom]; rfl
  · intro rid room hrid hroom
    have hj := jhas_of_jget hrid
    simp [ClientDirectoryServer.on_PUT, hj, hrid, hroom]

/-- Witness for C6: a body without `room_id` yields the bad-JSON 400; a body
naming an unknown room yields the room-does-not-exist 400; a valid request
creates the association and answers 200. -/
theorem c6_witness_concrete :
    ClientDirectoryServer.on_PUT (fun _ => some ⟨true⟩)
        (.ok ⟨"@u1:test", none⟩) (fun _ _ _ _ => .ok ()) "#a:test" []
      = .error (BadJsonErr 400 "Missing params: [\"room_id\"]")
    ∧ ClientDirectoryServer.on_PUT (fun _ => none)
        (.ok ⟨"@u1:test", none⟩) (fun _ _ _ _ => .ok ()) "#a:test"
        [("room_id", .str "!nope:test")]
      = .error (SynapseErr 400 "Room does not exist")
    ∧ ClientDirectoryServer.on_PUT (fun _ => some ⟨true⟩)
        (.ok ⟨"@u1:test", none⟩) (fun _ _ _ _ => .ok ()) "#a:test"
        [("room_id", .str "!room:test")]
      = .ok (200, []) :=
  ⟨(c6_put_alias_validation (fun _ => some ⟨true⟩) (.ok ⟨"@u1:test", none⟩)
      (fun _ _ _ _ => .ok ()) "#a:test" []).1 rfl,
   (c6_put_alias_validation (fun _ => none) (.ok ⟨"@u1:test", none⟩)
      (fun _ _ _ _ => .ok ()) "#a:test" [("room_id", .str "!nope:test")]).2.1
      (.str "!nope:test") rfl rfl,
   by
    have h := (c6_put_alias_validation (fun _ => some ⟨true⟩)
      (.ok ⟨"@u1:test", none⟩) (fun _ _ _ _ => .ok ()) "#a:test"
      [("room_id", .str "!room:test")]).2.2
      (.str "!room:test") ⟨true⟩ rfl rfl
    simpa using h⟩

/-- C7: DELETE /directory/list/room/{room_id} is extensionally the same
operation as PUT /directory/list/room/{room_id} with body
`{"visibility": "private"}`: both authenticate, invoke the same
published-room-list edit with `"private"`, and answer 200 with an empty
body. -/
theorem c7_delete_list_equals_put_private
    (gur : Except Err Requester)
    (edit_published_room_list : Requester → String → JVal → Except Err Unit)
    (room_id : String) :
    ClientDirectoryListServer.on_DELETE gur edit_published_room_list room_id
      = ClientDirectoryListServer.on_PUT gur edit_published_room_list room_id
          [("visibility", JVal.str "private")] := rfl

/-- C8: a PUT or DELETE on the appservice room-list route fails with 403 and
leaves the published appservice room list unmodified when the requester is
not an application service, or is one that does not own the network; when the
owning application service asks, the edit is applied and 200 returned.  On
PUT the visibility defaults to `"public"` when omitted; on DELETE it is
forced to `"private"`. -/
theorem c8_appservice_list_authorization
    (owner_of_network : String → Option String)
    (gur : Except Err Requester)
    (st : AppserviceRoomList)
    (network_id room_id : String) (visibility : JVal) (content : JBody) :
    (∀ req, gur = .ok req → req.app_service = none →
      ClientAppserviceDirectoryListServer.edit gur
          (modelled_appservice_handler owner_of_network st)
          network_id room_id visibility
        = .error (AuthErr 403
            "Only appservices can edit the appservice published room list")
      ∧ appservice_edit_final_state owner_of_network gur st
          network_id room_id visibility = st)
    ∧ (∀ req s, gur = .ok req → req.app_service = some s →
        ¬ owner_of_network network_id = some s.id →
      ClientAppserviceDirectoryListServer.edit gur
          (modelled_appservice_handler owner_of_network st)
          network_id room_id visibility
        = .error (AuthErr 403
            "This application service does not own this network")
      ∧ appservice_edit_final_state owner_of_network gur st
          network_id room_id visibility = st)
    ∧ (∀ req s, gur = .ok req → req.app_service = some s →
        owner_of_network network_id = some s.id →
      ClientAppserviceDirectoryListServer.edit gur
          (modelled_appservice_handler owner_of_network st)
          network_id room_id visibility
        = .ok (200, [])
      ∧ appservice_edit_final_state owner_of_network gur st
          network_id room_id visibility
        = st.set (s.id, network_id, room_id) visibility)
    ∧ (jget content "visibility" = none →
      ClientAppserviceDirectoryListServer.on_PUT gur
          (modelled_appservice_handler owner_of_network st)
          network_id room_id content
        = ClientAppserviceDirectoryListServer.edit gur
            (modelled_appservice_handler owner_of_network st)
            network_id room_id (.str "public"))
    ∧ (ClientAppserviceDirectoryListServer.on_DELETE gur
          (modelled_appservice_handler owner_of_network st)
          network_id room_id
        = ClientAppserviceDirectoryListServer.edit gur
            (modelled_appservice_handler owner_of_network st)
            network_id room_id (.str "private")) := by
  refine ⟨?_, ?_, ?_, ?_, ?_⟩
  · intro req hg ha
    constructor
    · simp [ClientAppserviceDirectoryListServer.edit, hg, Bind.bind,
        Except.bind, ha]
      rfl
    · simp [appservice_edit_final_state, hg, ha]
  · intro req s hg ha hown
    constructor
    · simp [ClientAppserviceDirectoryListServer.edit, hg, Bind.bind,
        Except.bind, ha, modelled_appservice_handler,
        edit_published_appservice_room_list, hown, Except.map]
    · simp [appservice_edit_final_state, hg, ha,
        edit_published_appservice_room_list, hown]
  · intro req s hg ha hown
    constructor
    · simp [ClientAppserviceDirectoryListServer.edit, hg, Bind.bind,
        Except.bind, ha, modelled_appservice_handler,
        edit_published_appservice_room_list, hown, Except.map, Functor.map]
      rfl
    · simp [appservice_edit_final_state, hg, ha,
        edit_published_appservice_room_list, hown]
  · intro h
    simp [ClientAppserviceDirectoryListServer.on_PUT, h]
  · rfl

/-- Witness for C8: a plain user is rejected with 403 and the list is kept,
while the owning application service edits successfully. -/
theorem c8_witness_concrete :
    (ClientAppserviceDirectoryListServer.edit
        (.ok ⟨"@u1:test", none⟩)
        (modelled_appservice_handler
          (fun n => if n = "net1" then some "as1" else none) ⟨[]⟩)
        "net1" "!room:test" (.str "public")
      = .error (AuthErr 403
          "Only appservices can edit the appservice published room list")
      ∧ appservice_edit_final_state
          (fun n => if n = "net1" then some "as1" else none)
          (.ok ⟨"@u1:test", none⟩) ⟨[]⟩ "net1" "!room:test" (.str "public")
        = ⟨[]⟩)
    ∧ (ClientAppserviceDirectoryListServer.edit
        (.ok ⟨"@as1:test", some ⟨"as1", "http://as.example.com"⟩⟩)
        (modelled_appservice_handler
          (fun n => if n = "net1" then some "as1" else none) ⟨[]⟩)
        "net1" "!room:test" (.str "public")
      = .ok (200, [])
      ∧ appservice_edit_final_state
          (fun n => if n = "net1" then some "as1" else none)
          (.ok ⟨"@as1:test", some ⟨"as1", "http://as.example.com"⟩⟩) ⟨[]⟩
          "net1" "!room:test" (.str "public")
        = AppserviceRoomList.set ⟨[]⟩ ("as1", "net1", "!room:test")
            (.str "public")) :=
  ⟨(c8_appservice_list_authorization
      (fun n => if n = "net1" then some "as1" else none)
      (.ok ⟨"@u1:test", none⟩) ⟨[]⟩ "net1" "!room:test" (.str "public") []).1
      ⟨"@u1:test", none⟩ rfl rfl,
   (c8_appservice_list_authorization
      (fun n => if n = "net1" then some "as1" else none)
      (.ok ⟨"@as1:test", some ⟨"as1", "http://as.example.com"⟩⟩) ⟨[]⟩
      "net1" "!room:test" (.str "public") []).2.2.1
      ⟨"@as1:test", some ⟨"as1", "http://as.example.com"⟩⟩
      ⟨"as1", "http://as.example.com"⟩ rfl rfl (by decide)⟩

/-- C9: GET /directory/list/room/{room_id} fails with a 404 NotFound when the
room is unknown to the store, and otherwise answers 200 with visibility
`"public"` exactly when the room's `is_public` flag is set and `"private"`
otherwise. -/
theorem c9_get_list_visibility
    (get_room : JVal → Option Room) (room_id : String) :
    (get_room (.str room_id) = none →
      ClientDirectoryListServer.on_GET get_room room_id
        = .error (NotFoundErr "Unknown room"))
    ∧ (∀ room, get_room (.str room_id) = some room →
      ClientDirectoryListServer.on_GET get_room room_id
        = .ok (200, [("visibility",
            .str (if room.is_public then "public" else "private"))])) := by
  constructor
  · intro h; simp [ClientDirectoryListServer.on_GET, h]
  · intro room h; simp [ClientDirectoryListServer.on_GET, h]

/-- Witness for C9: an unknown room gives the 404, a public room answers
visibility public. -/
theorem c9_witness_concrete :
    ClientDirectoryListServer.on_GET (fun _ => none) "!a:test"
      = .error (NotFoundErr "Unknown room")
    ∧ ClientDirectoryListServer.on_GET (fun _ => some ⟨true⟩) "!a:test"
      = .ok (200, [("visibility", .str "public")]) :=
  ⟨(c9_get_list_visibility (fun _ => none) "!a:test").1 rfl,
   by
    have h := (c9_get_list_visibility (fun _ => some ⟨true⟩) "!a:test").2
      ⟨true⟩ rfl
    simpa using h⟩

/-- C10: in PUT /directory/room/{alias} the room-existence check runs before
requester authentication: with a body naming a nonexistent room the handler
answers 400 "Room does not exist" for every authentication outcome — its
result does not depend on the authenticator, so even an unauthenticated
caller receives the 400 rather than an authentication error. -/
theorem c10_room_check_before_auth
    (get_room : JVal → Option Room)
    (gur gur2 : Except Err Requester)
    (ca : Requester → String → JVal → Option JVal → Except Err Unit)
    (room_alias : String) (content : JBody) (rid : JVal)
    (hrid : jget content "room_id" = some rid)
    (hroom : get_room rid = none) :
    ClientDirectoryServer.on_PUT get_room gur ca room_alias content
      = .error (SynapseErr 400 "Room does not exist")
    ∧ ClientDirectoryServer.on_PUT get_room gur ca room_alias content
      = ClientDirectoryServer.on_PUT get_room gur2 ca room_alias content := by
  have hj := jhas_of_jget hrid
  constructor
  · simp [ClientDirectoryServer.on_PUT, hj, hrid, hroom]; rfl
  · simp [ClientDirectoryServer.on_PUT, hj, hrid, hroom]

/-- Witness for C10: an unauthenticated caller (credentials rejected) naming
a nonexistent room still receives the 400, identical to an authenticated
caller's response. -/
theorem c10_witness_unauthenticated :
    ClientDirectoryServer.on_PUT (fun _ => none)
        (.error (.invalidClientCredentials "Missing access token"))
        (fun _ _ _ _ => .ok ()) "#a:test" [("room_id", .str "!nope:test")]
      = .error (SynapseErr 400 "Room does not exist")
    ∧ ClientDirectoryServer.on_PUT (fun _ => none)
        (.error (.invalidClientCredentials "Missing access token"))
        (fun _ _ _ _ => .ok ()) "#a:test" [("room_id", .str "!nope:test")]
      = ClientDirectoryServer.on_PUT (fun _ => none)
          (.ok ⟨"@u1:test", none⟩)
          (fun _ _ _ _ => .ok ()) "#a:test" [("room_id", .str "!nope:test")] :=
  c10_room_check_before_auth (fun _ => none)
    (.error (.invalidClientCredentials "Missing access token"))
    (.ok ⟨"@u1:test", none⟩) (fun _ _ _ _ => .ok ()) "#a:test"
    [("room_id", .str "!nope:test")] (.str "!nope:test") rfl rfl

end Synapse
